import Mathlib

/-!
Shallow embedding of the LinkedInBot program (src/linkedinbotv2.py) and
verification of its specification's claims.

The program's core logic: `infer_domain` generates candidate email domains
from a company name; `search_email_with_hunter` wraps one HTTP probe to the
Hunter.io email-finder; the "Search Results" tab partitions fetched profiles
by email presence, runs a short-circuiting resolver loop over the candidate
domains for each profile lacking an email, and exports the concatenation of
the two groups as CSV rows.

Network effects are modelled by passing in the behaviour of the external
collaborators explicitly: a probe function `String → String → String →
HunterResponse` gives, for each (domain, first name, last name) triple, the
HTTP response (or a transport-level failure, which in Python raises an
uncaught exception and is therefore modelled with `Except`).
-/

namespace LinkedInBot

/-- A profile record as assembled by `get_profile_details`: the five keys
`name`, `headline`, `location`, `company`, `email`, with `email` optional
(`profile.get("email", None)`). -/
structure Profile where
  name : String
  headline : String
  location : String
  company : String
  email : Option String
deriving DecidableEq, Repr

/-- Python truthiness of an optional string (`if profile["email"]:` and
`if email:`): `None` and the empty string are falsy. -/
def pyTruthy : Option String → Bool
  | none => false
  | some s => s ≠ ""

/-- The cleaning step of `infer_domain`:
`re.sub(r"[^a-zA-Z0-9]", "", company_name).lower()` — keep only ASCII
letters and digits, then lowercase. -/
def cleanCompanyName (s : String) : String :=
  String.mk ((s.data.filter Char.isAlphanum).map Char.toLower)

/-- The fixed ordered suffix list of `infer_domain`. -/
def domainSuffixes : List String := [".com", ".ca", ".org", ".edu", ".net", ".co"]

/-- `infer_domain`: the cleaned company name concatenated with each fixed
suffix, followed by the fixed fallback domain. -/
def infer_domain (company_name : String) : List String :=
  domainSuffixes.map (fun ext => cleanCompanyName company_name ++ ext) ++ ["gmail.com"]

/-- One response of the Hunter.io email-finder endpoint, as observed by
`search_email_with_hunter`: an HTTP response with a status code and, in the
body's `data` object, an optional email and an optional score; or a
transport-level failure, in which `requests.get` raises an exception. -/
inductive HunterResponse where
  | http (status : Nat) (email : Option String) (score : Option Int)
  | transportFailure
deriving DecidableEq, Repr

/-- `search_email_with_hunter`: on HTTP 200 returns
`(data.get("email"), data.get("score", 0))`; on any other status returns
`(None, None)`. A transport-level failure is an uncaught exception
propagating out of `requests.get`, modelled as `Except.error`. -/
def search_email_with_hunter (resp : HunterResponse) :
    Except String (Option String × Option Int) :=
  match resp with
  | .transportFailure => .error "requests.exceptions.ConnectionError"
  | .http status email score =>
    if status = 200 then .ok (email, some (score.getD 0)) else .ok (none, none)

/-- Worker for `pySplit`: scan the characters, accumulating the current
token in reverse; whitespace closes the current token (if nonempty). -/
def splitWsAux : List Char → List Char → List String
  | [], acc => if acc.isEmpty then [] else [String.mk acc.reverse]
  | c :: cs, acc =>
    if c.isWhitespace then
      if acc.isEmpty then splitWsAux cs []
      else String.mk acc.reverse :: splitWsAux cs []
    else splitWsAux cs (c :: acc)

/-- Python `str.split()` with no arguments: split on runs of whitespace,
discarding empty pieces (so the empty string splits to the empty list). -/
def pySplit (s : String) : List String :=
  splitWsAux s.data []

/-- The tab3 per-profile resolver loop
(`for domain in domains: email, score = search_email_with_hunter(...); if email: ... break`).
The first/last name arguments are `profile["name"].split()[0]` and
`profile["name"].split()[-1]`, which raise `IndexError` when the split is
empty — hence they arrive as `Option` and a `none` aborts the loop before
any probe is issued. Returns the list of domains actually queried together
with either the first truthy email found (with its score), `none` on
exhaustion, or an error when an exception escapes. -/
def resolverLoop (probe : String → String → String → HunterResponse)
    (firstName lastName : Option String) :
    List String → List String × Except String (Option (String × Option Int))
  | [] => ([], .ok none)
  | d :: ds =>
    match firstName, lastName with
    | some f, some l =>
      match search_email_with_hunter (probe d f l) with
      | .error e => ([d], .error e)
      | .ok (emailOpt, score) =>
        if pyTruthy emailOpt then
          ([d], .ok (some (emailOpt.getD "", score)))
        else
          let rest := resolverLoop probe firstName lastName ds
          (d :: rest.1, rest.2)
    | _, _ => ([], .error "IndexError")

/-- The tab3 treatment of a single profile lacking an email: infer the
domain candidates from its company, run the resolver loop with the first
and last whitespace token of its name, and on success set the email field
(`profile["email"] = email`). -/
def resolveProfile (probe : String → String → String → HunterResponse)
    (p : Profile) : Except String Profile :=
  match (resolverLoop probe (pySplit p.name).head? (pySplit p.name).getLast?
      (infer_domain p.company)).2 with
  | .error e => .error e
  | .ok none => .ok p
  | .ok (some (e, _)) => .ok { p with email := some e }

/-- The tab3 partition-then-resolve flow: split the fetched results into
`profiles_with_email` / `profiles_without_email` by truthiness of the email
field, then run the resolver on each profile of the second group (mutating
it in place in the source; the group keeps its order). -/
def tab3Partition (probe : String → String → String → HunterResponse)
    (results : List Profile) : Except String (List Profile × List Profile) := do
  let parts := results.partition (fun p => pyTruthy p.email)
  let resolved ← parts.2.mapM (resolveProfile probe)
  pure (parts.1, resolved)

/-- The export list handed to `export_data_to_csv`:
`profiles_with_email + profiles_without_email` after resolution. -/
def tab3Export (probe : String → String → String → HunterResponse)
    (results : List Profile) : Except String (List Profile) := do
  let parts ← tab3Partition probe results
  pure (parts.1 ++ parts.2)

/-- The five profile keys in the fixed insertion order `get_profile_details`
emits them. -/
def csvHeader : List String := ["name", "headline", "location", "company", "email"]

/-- One data row of the CSV artifact: the five field values in column
order; an absent email serializes as the empty cell (pandas NaN). -/
def profileRow (p : Profile) : List String :=
  [p.name, p.headline, p.location, p.company, p.email.getD ""]

/-- The columns `pd.DataFrame(profiles)` derives from the data: the dict
keys in insertion order of first appearance. Every profile dict built by
`get_profile_details` has the same five keys in the same order, so any
non-empty list yields `csvHeader`; the empty list yields a DataFrame with
no columns at all. -/
def dataFrameColumns (profiles : List Profile) : List String :=
  match profiles with
  | [] => []
  | _ :: _ => csvHeader

/-- `export_data_to_csv`, modelled at row level (the byte-level CSV
serialization is pandas `DataFrame.to_csv`, an external collaborator): the
tabular artifact is the data-derived header row followed by one row per
profile, in order. For the empty list the header row has no cells
(`pd.DataFrame([]).to_csv(index=False)` writes a single empty line). -/
def export_data_to_csv (profiles : List Profile) : List (List String) :=
  dataFrameColumns profiles :: profiles.map profileRow

/-- The tab2 search handler: `results` is initialized to the empty list;
the whole search step (client login, country-URN fetch, `search_people`)
runs in one try block whose except-clause shows `st.error(...)` with the
exception text. On failure, `results` keeps its initial empty value.
Returns (results, displayed error message). -/
def tab2Search (outcome : Except String (List Profile)) :
    List Profile × Option String :=
  match outcome with
  | .ok r => (r, none)
  | .error e => ([], some ("Error: " ++ e))

/-- Modelled from the spec (claim C3's words, for comparison with
`tab3Export`): the order-preserving partition of the resolved profiles by
email presence, has-email group concatenated first. -/
def specPartitionExport (resolved : List Profile) : List Profile :=
  resolved.filter (fun p => pyTruthy p.email) ++
    resolved.filter (fun p => !(pyTruthy p.email))

/-! ## Concrete instances used by witnesses and counterexamples -/

/-- Concrete oracle for the C3 counterexample: it resolves exactly the
domain "beta.com". -/
def c3Probe : String → String → String → HunterResponse :=
  fun d _ _ =>
    if d = "beta.com" then .http 200 (some "bob@beta.com") (some 90)
    else .http 200 none none

/-- Concrete fetched profile with an email, for C3. -/
def c3A : Profile := ⟨"Ann Ames", "Engineer", "NYC", "Alpha", some "ann@alpha.com"⟩

/-- Concrete fetched profile without an email, for C3. -/
def c3B : Profile := ⟨"Bob Burr", "Developer", "LA", "Beta", none⟩

/-- Concrete fetched profile with an email, for C3. -/
def c3C : Profile := ⟨"Cat Cole", "Manager", "SF", "Gamma", some "cat@gamma.com"⟩

/-- `c3B` after the resolver found its email, for C3. -/
def c3Bres : Profile := ⟨"Bob Burr", "Developer", "LA", "Beta", some "bob@beta.com"⟩

/-- Concrete oracle for the C2 witness: the third candidate domain of
"Acme, Inc." hits, everything else misses. -/
def c2Probe : String → String → String → HunterResponse :=
  fun d _ _ =>
    if d = "acmeinc.org" then .http 200 (some "jane@acmeinc.org") (some 85)
    else .http 200 none none

/-- Concrete profile for the C2 witness. -/
def c2P : Profile := ⟨"Jane Doe", "Engineer", "Toronto", "Acme, Inc.", none⟩

/-- Concrete all-miss oracle for the C4 witness. -/
def c4Probe : String → String → String → HunterResponse :=
  fun _ _ _ => .http 200 none none

/-- Concrete email-less profile for the C4 witness. -/
def c4P : Profile := ⟨"Sam Poe", "Analyst", "Berlin", "Acme", none⟩

/-- Concrete profile for the C6 witness, with sentinel defaults and a
missing email. -/
def c6P : Profile := ⟨"Pat Quin", "N/A", "N/A", "N/A", none⟩

/-- Concrete oracle for the C7 witness (it hits on every probe, showing the
loop still stops after one query). -/
def c7Probe : String → String → String → HunterResponse :=
  fun _ _ _ => .http 200 (some "found@x.com") (some 50)

/-- Concrete profile with an email already present, for the C7 witness. -/
def c7P : Profile := ⟨"Eve Lin", "CTO", "Oslo", "Corp", some "eve@corp.com"⟩

/-- Concrete oracle for the C8 counterexample: a transport-level failure on
the first candidate domain, a hit on every other domain. -/
def c8Probe : String → String → String → HunterResponse :=
  fun d _ _ =>
    if d = "acme.com" then .transportFailure
    else .http 200 (some "ann@acme.ca") (some 70)

/-- Concrete always-404 oracle for the C8 witness. -/
def c8wProbe : String → String → String → HunterResponse :=
  fun _ _ _ => .http 404 none none

/-! ## Helper lemmas -/

/-- Order on `UInt32` is the order of the underlying naturals. -/
theorem uint32_le_iff_toNat_le (a b : UInt32) : a ≤ b ↔ a.toNat ≤ b.toNat := by
  simp [UInt32.le_def, BitVec.le_def, UInt32.toNat]

/-- `Char.toLower` never produces an ASCII uppercase letter. -/
theorem toLower_not_upper (x : Char) : (x.toLower).isUpper = false := by
  show (if x.toNat ≥ 65 ∧ x.toNat ≤ 90 then Char.ofNat (x.toNat + 32) else x).isUpper = false
  by_cases h : x.toNat ≥ 65 ∧ x.toNat ≤ 90
  · rw [if_pos h]
    obtain ⟨h1, h2⟩ := h
    simp only [Char.toNat] at h1 h2 ⊢
    interval_cases hx : x.val.toNat <;> decide
  · rw [if_neg h]
    push_neg at h
    simp only [Char.isUpper, Bool.and_eq_false_iff, decide_eq_false_iff_not,
      uint32_le_iff_toNat_le]
    simp only [Char.toNat] at h
    rw [show (65 : UInt32).toNat = 65 from rfl, show (90 : UInt32).toNat = 90 from rfl]
    omega

/-- `Char.toLower` keeps ASCII alphanumerics alphanumeric. -/
theorem toLower_alnum (x : Char) (hx : x.isAlphanum = true) :
    (x.toLower).isAlphanum = true := by
  show (if x.toNat ≥ 65 ∧ x.toNat ≤ 90 then Char.ofNat (x.toNat + 32) else x).isAlphanum = true
  by_cases h : x.toNat ≥ 65 ∧ x.toNat ≤ 90
  · rw [if_pos h]
    obtain ⟨h1, h2⟩ := h
    simp only [Char.toNat] at h1 h2 ⊢
    interval_cases hxv : x.val.toNat <;> decide
  · rw [if_neg h]
    exact hx

/-- The resolver loop on a run of misses queries every domain and reports
exhaustion. -/
theorem resolverLoop_all_miss (probe : String → String → String → HunterResponse)
    (f l : String) (ds : List String)
    (h : ∀ d ∈ ds, ∃ o s, search_email_with_hunter (probe d f l) = .ok (o, s) ∧
      pyTruthy o = false) :
    resolverLoop probe (some f) (some l) ds = (ds, .ok none) := by
  induction ds with
  | nil => rfl
  | cons d ds ih =>
    obtain ⟨o, s, hs, ho⟩ := h d (by simp)
    rw [resolverLoop, hs]
    simp only [ho, Bool.false_eq_true, if_false]
    rw [ih (fun d2 hd2 => h d2 (by simp [hd2]))]

/-- `tab3Export` written with the partition unfolded into its two filters:
the initially-with-email profiles in original order, followed by the
initially-without-email profiles in original order, each passed through the
resolver. -/
theorem tab3Export_filter_form (probe : String → String → String → HunterResponse)
    (results : List Profile) :
    tab3Export probe results = (do
      let resolved ← (results.filter (fun p => !(pyTruthy p.email))).mapM
        (resolveProfile probe)
      pure (results.filter (fun p => pyTruthy p.email) ++ resolved)) := by
  simp only [tab3Export, tab3Partition, List.partition_eq_filter_filter]
  have hc : (not ∘ fun p : Profile => pyTruthy p.email) =
      (fun p : Profile => !(pyTruthy p.email)) := rfl
  rw [hc]
  cases hm : (results.filter (fun p => !(pyTruthy p.email))).mapM (resolveProfile probe) with
  | error err => simp [hm, Bind.bind, Except.bind]
  | ok resolved => simp [hm, Bind.bind, Except.bind, Pure.pure, Except.pure]

/-! ## Claim theorems -/

/-- C1: for every company-name string, `infer_domain` returns exactly 7
candidates; the last is the fixed fallback "gmail.com"; and each of the
first six ends in the corresponding member of the ordered suffix list
.com, .ca, .org, .edu, .net, .co. -/
theorem infer_domain_seven_candidates (c : String) :
    (infer_domain c).length = 7 ∧
    (infer_domain c).getLast? = some "gmail.com" ∧
    ".com".data <:+ ((infer_domain c).getD 0 "").data ∧
    ".ca".data <:+ ((infer_domain c).getD 1 "").data ∧
    ".org".data <:+ ((infer_domain c).getD 2 "").data ∧
    ".edu".data <:+ ((infer_domain c).getD 3 "").data ∧
    ".net".data <:+ ((infer_domain c).getD 4 "").data ∧
    ".co".data <:+ ((infer_domain c).getD 5 "").data := by
  refine ⟨?_, ?_, ?_, ?_, ?_, ?_, ?_, ?_⟩ <;>
    simp [infer_domain, domainSuffixes, String.data_append, List.suffix_append]

/-- C2: for a profile lacking an email, the resolver loop probes the
inferred domain candidates in order and stops at the first probe returning
a non-empty address: when the oracle misses on candidates 1 and 2 and hits
on candidate 3, the loop queries exactly the first three candidates (so
candidates 4 through 7 are never queried), returns that email, and the
profile ends up with it set. -/
theorem resolver_stops_at_first_success
    (probe : String → String → String → HunterResponse) (p : Profile)
    (f l e : String) (o1 o2 : Option String) (s1 s2 s3 : Option Int)
    (hEmail : pyTruthy p.email = false)
    (hf : (pySplit p.name).head? = some f)
    (hl : (pySplit p.name).getLast? = some l)
    (h1 : search_email_with_hunter (probe (cleanCompanyName p.company ++ ".com") f l) =
      .ok (o1, s1))
    (ho1 : pyTruthy o1 = false)
    (h2 : search_email_with_hunter (probe (cleanCompanyName p.company ++ ".ca") f l) =
      .ok (o2, s2))
    (ho2 : pyTruthy o2 = false)
    (h3 : search_email_with_hunter (probe (cleanCompanyName p.company ++ ".org") f l) =
      .ok (some e, s3))
    (he : e ≠ "") :
    resolverLoop probe (some f) (some l) (infer_domain p.company) =
      ([cleanCompanyName p.company ++ ".com", cleanCompanyName p.company ++ ".ca",
        cleanCompanyName p.company ++ ".org"], .ok (some (e, s3))) ∧
    tab3Partition probe [p] = .ok ([], [{ p with email := some e }]) := by
  have hd : infer_domain p.company =
      [cleanCompanyName p.company ++ ".com", cleanCompanyName p.company ++ ".ca",
       cleanCompanyName p.company ++ ".org", cleanCompanyName p.company ++ ".edu",
       cleanCompanyName p.company ++ ".net", cleanCompanyName p.company ++ ".co",
       "gmail.com"] := by simp [infer_domain, domainSuffixes]
  have hte : pyTruthy (some e) = true := by simp [pyTruthy, he]
  have hloop : resolverLoop probe (some f) (some l) (infer_domain p.company) =
      ([cleanCompanyName p.company ++ ".com", cleanCompanyName p.company ++ ".ca",
        cleanCompanyName p.company ++ ".org"], .ok (some (e, s3))) := by
    rw [hd]
    rw [resolverLoop]
    rw [h1]
    simp only [ho1, Bool.false_eq_true, if_false]
    rw [resolverLoop]
    rw [h2]
    simp only [ho2, Bool.false_eq_true, if_false]
    rw [resolverLoop]
    rw [h3]
    simp only [hte, if_true, Option.getD_some]
  have hres : resolveProfile probe p = .ok { p with email := some e } := by
    unfold resolveProfile
    rw [hf, hl, hloop]
  refine ⟨hloop, ?_⟩
  have hcomp : (not ∘ fun q : Profile => pyTruthy q.email) p = true := by
    simp [Function.comp, hEmail]
  simp only [tab3Partition, List.partition_eq_filter_filter, List.filter, hEmail, hcomp,
    List.mapM, List.mapM.loop, hres]
  rfl

/-- Witness for C2 at a concrete oracle and profile. -/
theorem resolver_stops_at_first_success_witness :
    resolverLoop c2Probe (some "Jane") (some "Doe") (infer_domain c2P.company) =
      ([cleanCompanyName c2P.company ++ ".com", cleanCompanyName c2P.company ++ ".ca",
        cleanCompanyName c2P.company ++ ".org"], .ok (some ("jane@acmeinc.org", some 85))) ∧
    tab3Partition c2Probe [c2P] = .ok ([], [{ c2P with email := some "jane@acmeinc.org" }]) :=
  resolver_stops_at_first_success c2Probe c2P "Jane" "Doe" "jane@acmeinc.org"
    none none (some 0) (some 0) (some 85) rfl rfl rfl rfl rfl rfl rfl rfl (by decide)

/-- C3 counterexample: the claim says the export list is the
order-preserving partition of all resolved profiles by email presence with
the has-email group first. With fetched profiles [A(has), B(no), C(has)]
and an oracle that resolves B's email, the code exports [A, C, B-resolved]
(B stays in the missing-email group it was assigned before resolution),
while the order-preserving partition of the resolved profiles
[A, B-resolved, C] — all of which now have emails — is [A, B-resolved, C].
The two lists differ, so the claim as stated is false. -/
theorem export_not_partition_of_resolved :
    tab3Export c3Probe [c3A, c3B, c3C] = .ok [c3A, c3C, c3Bres] ∧
    specPartitionExport [c3A, c3Bres, c3C] = [c3A, c3Bres, c3C] ∧
    [c3A, c3C, c3Bres] ≠ [c3A, c3Bres, c3C] ∧
    pyTruthy c3Bres.email = true :=
  ⟨rfl, by decide, by decide, rfl⟩

/-- C3 amended: the export list is the order-preserving partition of the
fetched profiles by email presence at fetch time (before any Hunter
resolution), has-email group first, with the resolver applied in place to
the members of the missing-email group — a profile that gains an email via
the resolver keeps its position in the second group. In particular, for
fetched order [A(has), B(no, unresolved), C(has)] the exported order is
[A, C, B]. -/
theorem export_partitions_by_initial_email
    (probe : String → String → String → HunterResponse) (results : List Profile) :
    tab3Export probe results = (do
      let resolved ← (results.filter (fun p => !(pyTruthy p.email))).mapM
        (resolveProfile probe)
      pure (results.filter (fun p => pyTruthy p.email) ++ resolved)) ∧
    tab3Export (fun _ _ _ => .http 404 none none) [c3A, c3B, c3C] =
      .ok [c3A, c3C, c3B] :=
  ⟨tab3Export_filter_form probe results, rfl⟩

/-- C4: when the oracle misses on every candidate domain, the resolver loop
terminates with the profile unchanged (its email still absent) and the
profile stays in the missing-email partition; exhaustion is an ordinary
`Except.ok` outcome, not an error. -/
theorem resolver_exhaustion_keeps_profile
    (probe : String → String → String → HunterResponse) (p : Profile) (f l : String)
    (hEmail : pyTruthy p.email = false)
    (hf : (pySplit p.name).head? = some f)
    (hl : (pySplit p.name).getLast? = some l)
    (hAll : ∀ d ∈ infer_domain p.company, ∃ o s,
      search_email_with_hunter (probe d f l) = .ok (o, s) ∧ pyTruthy o = false) :
    resolveProfile probe p = .ok p ∧
    (resolveProfile probe p).map Profile.email = .ok p.email ∧
    tab3Partition probe [p] = .ok ([], [p]) := by
  have hloop : resolverLoop probe (some f) (some l) (infer_domain p.company) =
      (infer_domain p.company, .ok none) :=
    resolverLoop_all_miss probe f l _ hAll
  have hres : resolveProfile probe p = .ok p := by
    unfold resolveProfile
    rw [hf, hl, hloop]
  refine ⟨hres, by rw [hres]; rfl, ?_⟩
  have hcomp : (not ∘ fun q : Profile => pyTruthy q.email) p = true := by
    simp [Function.comp, hEmail]
  simp only [tab3Partition, List.partition_eq_filter_filter, List.filter, hEmail, hcomp,
    List.mapM, List.mapM.loop, hres]
  rfl

/-- Witness for C4 at a concrete all-miss oracle and profile. -/
theorem resolver_exhaustion_keeps_profile_witness :
    resolveProfile c4Probe c4P = .ok c4P ∧
    (resolveProfile c4Probe c4P).map Profile.email = .ok c4P.email ∧
    tab3Partition c4Probe [c4P] = .ok ([], [c4P]) :=
  resolver_exhaustion_keeps_profile c4Probe c4P "Sam" "Poe" rfl rfl rfl
    (fun _ _ => ⟨none, some 0, rfl, rfl⟩)

/-- C5: for every company name, every character of the cleaned local part
is an ASCII alphanumeric (so every non-alphanumeric character of the input
is absent from it) and none is uppercase; in particular "Acme, Inc."
cleans to "acmeinc" and its first candidate is "acmeinc.com". -/
theorem cleanCompanyName_strips_and_lowercases (c : String) :
    (∀ ch ∈ (cleanCompanyName c).data, ch.isAlphanum = true ∧ ch.isUpper = false) ∧
    (∀ ch : Char, ch.isAlphanum = false → ch ∉ (cleanCompanyName c).data) ∧
    cleanCompanyName "Acme, Inc." = "acmeinc" ∧
    (infer_domain "Acme, Inc.").getD 0 "" = "acmeinc.com" := by
  have hmain : ∀ ch ∈ (cleanCompanyName c).data, ch.isAlphanum = true ∧ ch.isUpper = false := by
    intro ch hch
    simp only [cleanCompanyName] at hch
    obtain ⟨x, hxmem, hxeq⟩ := List.mem_map.mp hch
    have hxal : x.isAlphanum = true := (List.mem_filter.mp hxmem).2
    subst hxeq
    exact ⟨toLower_alnum x hxal, toLower_not_upper x⟩
  refine ⟨hmain, ?_, by decide, by decide⟩
  intro ch hal hmem
  have := (hmain ch hmem).1
  rw [this] at hal
  cases hal

/-- C6 counterexample: the claim quantifies over every list of N profiles,
but at N = 0 `pd.DataFrame([])` derives no columns from the data, so the
exported artifact is a single empty line — its header row has no cells and
is not the 5 column headers the claim requires. (The source never reaches
this input: the download button is guarded by
`if profiles_with_email or profiles_without_email:`.) -/
theorem export_empty_list_headerless :
    export_data_to_csv [] = [[]] ∧
    dataFrameColumns [] = [] ∧
    (export_data_to_csv []).head? ≠ some csvHeader ∧
    csvHeader.length = 5 :=
  ⟨rfl, rfl, by decide, rfl⟩

/-- C6 amended: exporting any non-empty list of N profiles yields a tabular
artifact whose first row is exactly the 5 column headers name, headline,
location, company, email in that order, followed by exactly N data rows of
5 cells each (whatever the field values are); for the empty list — which
the export button's guard never passes — the artifact has no column
headers. The byte-level UTF-8 CSV rendering is pandas `to_csv`, an external
collaborator, so the artifact is modelled at row level. -/
theorem export_csv_schema (profiles : List Profile) (h : profiles ≠ []) :
    (export_data_to_csv profiles).head? =
      some ["name", "headline", "location", "company", "email"] ∧
    (export_data_to_csv profiles).length = profiles.length + 1 ∧
    List.tail (export_data_to_csv profiles) = profiles.map profileRow ∧
    ∀ p : Profile, (profileRow p).length = 5 := by
  cases profiles with
  | nil => exact absurd rfl h
  | cons q qs => exact ⟨rfl, by simp [export_data_to_csv], rfl, fun p => rfl⟩

/-- Witness for the amended C6 at a concrete one-profile list. -/
theorem export_csv_schema_witness :
    (export_data_to_csv [c6P]).head? =
      some ["name", "headline", "location", "company", "email"] ∧
    (export_data_to_csv [c6P]).length = [c6P].length + 1 ∧
    List.tail (export_data_to_csv [c6P]) = [c6P].map profileRow ∧
    ∀ p : Profile, (profileRow p).length = 5 :=
  export_csv_schema [c6P] (by decide)

/-- C7: a profile whose email is set (truthy) passes through the tab3 flow
untouched — the very same record, email included, appears in the export
output (the resolver is only invoked on profiles whose email is absent) —
and a successful probe ends the resolver loop immediately: no further
domain is queried after the first hit. -/
theorem email_once_set_never_cleared
    (probe : String → String → String → HunterResponse)
    (results out : List Profile) (p : Profile)
    (hout : tab3Export probe results = .ok out)
    (hp : p ∈ results) (he : pyTruthy p.email = true) :
    p ∈ out ∧
    ∀ (d : String) (ds : List String) (f l e2 : String) (sc : Option Int),
      search_email_with_hunter (probe d f l) = .ok (some e2, sc) → e2 ≠ "" →
      resolverLoop probe (some f) (some l) (d :: ds) = ([d], .ok (some (e2, sc))) := by
  constructor
  · rw [tab3Export_filter_form probe results] at hout
    cases hm : (results.filter (fun q => !(pyTruthy q.email))).mapM (resolveProfile probe) with
    | error err =>
      rw [hm] at hout
      simp [Bind.bind, Except.bind] at hout
    | ok resolved =>
      rw [hm] at hout
      simp only [Bind.bind, Except.bind, Pure.pure, Except.pure, Except.ok.injEq] at hout
      rw [← hout]
      exact List.mem_append_left _ (List.mem_filter.mpr ⟨hp, he⟩)
  · intro d ds f l e2 sc hs hne
    rw [resolverLoop, hs]
    simp [pyTruthy, hne]

/-- Witness for C7 at a concrete oracle and profile list. -/
theorem email_once_set_never_cleared_witness :
    c7P ∈ [c7P] ∧
    ∀ (d : String) (ds : List String) (f l e2 : String) (sc : Option Int),
      search_email_with_hunter (c7Probe d f l) = .ok (some e2, sc) → e2 ≠ "" →
      resolverLoop c7Probe (some f) (some l) (d :: ds) = ([d], .ok (some (e2, sc))) :=
  email_once_set_never_cleared c7Probe [c7P] [c7P] c7P rfl (by simp) rfl

/-- C8 counterexample: the claim says any failure of the email-finder call,
including a transport-level one, makes `search_email_with_hunter` return no
address and the loop silently advance. In the code a transport-level
failure is an uncaught `requests` exception: `search_email_with_hunter`
does not return at all, and the loop aborts after the first candidate
even though the second candidate would have yielded an address. -/
theorem transport_failure_aborts_loop :
    search_email_with_hunter HunterResponse.transportFailure =
      .error "requests.exceptions.ConnectionError" ∧
    search_email_with_hunter HunterResponse.transportFailure ≠ .ok (none, none) ∧
    search_email_with_hunter (c8Probe "acme.ca" "Ann" "Lee") =
      .ok (some "ann@acme.ca", some 70) ∧
    resolverLoop c8Probe (some "Ann") (some "Lee") (infer_domain "Acme") =
      (["acme.com"], .error "requests.exceptions.ConnectionError") :=
  ⟨rfl, fun h => Except.noConfusion h, rfl, rfl⟩

/-- C8 amended: any non-success HTTP response (status other than 200) from
the email-finder call is treated identically to the domain not being found:
`search_email_with_hunter` returns no address and the loop advances to the
next candidate without retrying the same domain. A transport-level failure,
however, is not caught: it aborts the loop after the failing probe instead
of advancing. -/
theorem non_success_response_advances
    (probe : String → String → String → HunterResponse)
    (f l d : String) (ds : List String) (status : Nat)
    (em : Option String) (sc : Option Int)
    (hstatus : status ≠ 200) (hd : probe d f l = .http status em sc) :
    search_email_with_hunter (probe d f l) = .ok (none, none) ∧
    resolverLoop probe (some f) (some l) (d :: ds) =
      (d :: (resolverLoop probe (some f) (some l) ds).1,
       (resolverLoop probe (some f) (some l) ds).2) ∧
    ∀ (probe2 : String → String → String → HunterResponse) (f2 l2 d2 : String)
      (ds2 : List String), probe2 d2 f2 l2 = .transportFailure →
      resolverLoop probe2 (some f2) (some l2) (d2 :: ds2) =
        ([d2], .error "requests.exceptions.ConnectionError") := by
  have hs : search_email_with_hunter (probe d f l) = .ok (none, none) := by
    rw [hd]
    simp [search_email_with_hunter, hstatus]
  refine ⟨hs, ?_, ?_⟩
  · rw [resolverLoop, hs]
    simp [pyTruthy]
  · intro probe2 f2 l2 d2 ds2 h2
    rw [resolverLoop, h2]
    rfl

/-- Witness for the amended C8 at a concrete oracle and domain list. -/
theorem non_success_response_advances_witness :
    search_email_with_hunter (c8wProbe "x.com" "Al" "Bo") = .ok (none, none) ∧
    resolverLoop c8wProbe (some "Al") (some "Bo") ["x.com", "y.com"] =
      ("x.com" :: (resolverLoop c8wProbe (some "Al") (some "Bo") ["y.com"]).1,
       (resolverLoop c8wProbe (some "Al") (some "Bo") ["y.com"]).2) ∧
    ∀ (probe2 : String → String → String → HunterResponse) (f2 l2 d2 : String)
      (ds2 : List String), probe2 d2 f2 l2 = .transportFailure →
      resolverLoop probe2 (some f2) (some l2) (d2 :: ds2) =
        ([d2], .error "requests.exceptions.ConnectionError") :=
  non_success_response_advances c8wProbe "Al" "Bo" "x.com" ["y.com"] 404 none none
    (by decide) rfl

/-- C9: every failure raised during the search step is caught and surfaced
to the user as a plain message, and the result set is left empty — the same
result set an empty successful search produces. -/
theorem search_failure_leaves_results_empty (e : String) :
    tab2Search (.error e) = ([], some ("Error: " ++ e)) ∧
    (tab2Search (.error e)).1 = (tab2Search (.ok [])).1 :=
  ⟨rfl, rfl⟩

/-- C10: the resolver derives the probe's first and last name as the first
and last whitespace-separated token of the profile's name: a single-token
name supplies the same token for both; the empty name splits to no tokens,
the index-0 extraction is undefined (Python IndexError), and the probe loop
fails before issuing any query rather than advancing. -/
theorem name_token_derivation :
    (∀ s t : String, pySplit s = [t] →
      (pySplit s).head? = some t ∧ (pySplit s).getLast? = some t) ∧
    pySplit "" = [] ∧
    (∀ (probe : String → String → String → HunterResponse) (p : Profile),
      p.name = "" → resolveProfile probe p = .error "IndexError") := by
  refine ⟨?_, rfl, ?_⟩
  · intro s t h
    rw [h]
    exact ⟨rfl, rfl⟩
  · intro probe p hname
    unfold resolveProfile
    rw [hname]
    rw [show infer_domain p.company = (cleanCompanyName p.company ++ ".com") ::
      (domainSuffixes.tail.map (fun ext => cleanCompanyName p.company ++ ext) ++ ["gmail.com"])
      from by simp [infer_domain, domainSuffixes]]
    rfl

end LinkedInBot
